import Mathlib

/-!
Verification of the cronevents repository (src/cronevents/event_manager.py and
src/cronevents/event.py) against its natural-language specification.

The embedding works with exact rational numbers (`Rat`) in place of Python
floats: every timestamp and duration appearing in the verified claims is an
exact decimal, where Python float arithmetic is exact as well.  Python string
primitives (`split`, `strip`, `replace`, `in`, `startswith`, `count`, `lower`)
are modelled character-exactly on `List Char`; all strings handled by the
program are ASCII.  Python exceptions are modelled with `Except`: a helper
that can raise returns `Except e a`, and a `try/except` block is a `match` on
that result.
-/

/- Batteries marks `Rat` arithmetic `@[irreducible]`; make it unfold so that
concrete evaluations go through `decide`. -/
attribute [local semireducible] Rat.add Rat.mul Rat.sub Rat.inv Rat.ofScientific

deriving instance DecidableEq for Except

/-! ## Python string primitives -/

/-- The whitespace characters stripped by Python `str.strip()` (ASCII part). -/
def isPyWs (c : Char) : Bool :=
  c = ' ' || c = '\t' || c = '\n' || c = '\r' || c = '\x0b' || c = '\x0c'

/-- Python `str.strip()` on a character list. -/
def pyStripL (l : List Char) : List Char :=
  ((l.dropWhile isPyWs).reverse.dropWhile isPyWs).reverse

/-- Python `str.strip()`. -/
def pyStripS (s : String) : String := String.mk (pyStripL s.data)

/-- Python `str.lower()` (ASCII). -/
def pyLowerS (s : String) : String := String.mk (s.data.map Char.toLower)

/-- Python `needle in haystack` on character lists (nonempty needle). -/
def pyContainsL (sub : List Char) : List Char → Bool
  | [] => sub.isEmpty
  | c :: rest => sub.isPrefixOf (c :: rest) || pyContainsL sub rest

/-- Python `sub in s` (substring containment). -/
def pyContainsS (s sub : String) : Bool := pyContainsL sub.data s.data

/-- Python `s.startswith(p)`. -/
def pyStartsWithS (s p : String) : Bool := p.data.isPrefixOf s.data

/-- Python `s.endswith(p)`. -/
def pyEndsWithS (s p : String) : Bool := p.data.reverse.isPrefixOf s.data.reverse

/-- Worker for `pySplitS`; `fuel` bounds the number of characters scanned and
`acc` holds the current piece reversed.  Mirrors Python `str.split(sep)` for a
nonempty separator. -/
def pySplitAux (sep : List Char) : Nat → List Char → List Char → List (List Char)
  | _, acc, [] => [acc.reverse]
  | 0, acc, rest => [acc.reverse ++ rest]
  | fuel+1, acc, c :: cs =>
    if sep.isPrefixOf (c :: cs) then
      acc.reverse :: pySplitAux sep fuel [] (List.drop (sep.length - 1) cs)
    else
      pySplitAux sep fuel (c :: acc) cs

/-- Python `s.split(sep)` for a nonempty separator `sep`. -/
def pySplitS (s sep : String) : List String :=
  if sep.data.isEmpty then [s]
  else (pySplitAux sep.data s.data.length [] s.data).map (fun l => String.mk l)

/-- Worker for `pySplitWsS`: split on whitespace runs, dropping empty pieces
(Python `str.split()` with no argument). -/
def pySplitWsAux : List Char → List Char → List (List Char)
  | acc, [] => if acc.isEmpty then [] else [acc.reverse]
  | acc, c :: cs =>
    if isPyWs c then
      if acc.isEmpty then pySplitWsAux [] cs else acc.reverse :: pySplitWsAux [] cs
    else pySplitWsAux (c :: acc) cs

/-- Python `s.split()` (no separator: split on whitespace runs). -/
def pySplitWsS (s : String) : List String :=
  (pySplitWsAux [] s.data).map (fun l => String.mk l)

/-- Python `s.count(sub)` for a nonempty `sub` (number of non-overlapping
occurrences). -/
def pyCountS (s sub : String) : Nat := (pySplitS s sub).length - 1

/-- Python `s.replace(old, new)` (all occurrences), as split-and-rejoin. -/
def pyReplaceAllS (s old new : String) : String :=
  String.intercalate new (pySplitS s old)

/-- Python `s.replace(old, new, 1)` (first occurrence only). -/
def pyReplaceFirstS (s old new : String) : String :=
  match pySplitS s old with
  | [] => s
  | [_] => s
  | x :: rest => x ++ new ++ String.intercalate old rest

/-- `l[0]` for a list of strings produced by a Python split (never empty). -/
def headDS (l : List String) : String := l.headD ""

/-- `l[-1]` for a list of strings produced by a Python split (never empty). -/
def lastDS (l : List String) : String := l.getLastD ""

/-! ## Python numeric conversions -/

/-- Numeric value of a digit character. -/
def digitVal (c : Char) : Nat := c.toNat - '0'.toNat

/-- Fold a digit list into a natural number. -/
def digitsToNat : List Char → Nat → Nat
  | [], acc => acc
  | c :: cs, acc => digitsToNat cs (acc * 10 + digitVal c)

/-- Check a digit run as accepted inside a Python numeric literal, directly
after a digit: underscores must be surrounded by digits. -/
def pyDigitsAux : List Char → Bool
  | [] => true
  | '_' :: c :: rest => c.isDigit && pyDigitsAux rest
  | '_' :: [] => false
  | c :: rest => c.isDigit && pyDigitsAux rest

/-- A nonempty digit run with legal underscore separators. -/
def pyDigitsOk : List Char → Bool
  | [] => false
  | c :: rest => c.isDigit && pyDigitsAux rest

/-- Value of a digit run, ignoring underscore separators. -/
def pyDigitsVal (l : List Char) : Nat :=
  digitsToNat (l.filter (fun c => c.isDigit)) 0

/-- Python `int(s)` on a string: optional surrounding whitespace, optional
sign, digits with underscore separators.  `none` models `ValueError`. -/
def parseIntPy (s : String) : Option Int :=
  match pyStripL s.data with
  | '+' :: rest => if pyDigitsOk rest then some (pyDigitsVal rest : Nat) else none
  | '-' :: rest => if pyDigitsOk rest then some (-(pyDigitsVal rest : Nat) : Int) else none
  | cs => if pyDigitsOk cs then some (pyDigitsVal cs : Nat) else none

/-- Value of a decimal body `intpart[.fracpart]` as an exact rational. -/
def pyDecimalVal? (body : List Char) : Option Rat :=
  match pySplitAux ['.'] body.length [] body with
  | [ip] => if pyDigitsOk ip then some (pyDigitsVal ip : Nat) else none
  | [ip, fp] =>
    if (ip.isEmpty || pyDigitsOk ip) && (fp.isEmpty || pyDigitsOk fp)
        && !(ip.isEmpty && fp.isEmpty) then
      some ((pyDigitsVal ip : Rat) +
        mkRat (pyDigitsVal fp) (10 ^ (fp.filter (fun c => c.isDigit)).length))
    else none
  | _ => none

/-- Python `float(s)` restricted to plain decimal notation
`[+-]? (digits [. digits*] | . digits+)` with optional surrounding
whitespace.  Exponent, `inf` and `nan` forms are not modelled: the grammar
tokens this program parses are plain decimals, and a `nan` result is mapped
back to the caller's default by `try_number` anyway. -/
def parseFloatPy (s : String) : Option Rat :=
  match pyStripL s.data with
  | '+' :: rest => pyDecimalVal? rest
  | '-' :: rest => (pyDecimalVal? rest).map (fun q => -q)
  | cs => pyDecimalVal? cs

/-- `try_number(value, _type=float, on_fail_return_value=d)` from
event_manager.py: parse as float, return `d` on failure. -/
def tryFloatD (s : String) (d : Rat) : Rat := (parseFloatPy s).getD d

/-- `try_number(value, _type=int, on_fail_return_value=d)` from
event_manager.py: parse as int, return `d` on failure. -/
def tryIntD (s : String) (d : Int) : Int := (parseIntPy s).getD d

/-- `is_int(value)` from event_manager.py: does Python `int(value)` succeed. -/
def is_int (s : String) : Bool := (parseIntPy s).isSome

/-- Python `str(i)` for an int. -/
def intToStr (i : Int) : String := toString i

/-- Floor of a rational (`Rat` is stored reduced with positive denominator,
so flooring division of numerator by denominator is the floor). -/
def rfloor (q : Rat) : Int := Int.fdiv q.num q.den

/-! ## event_manager.py: data model and time parsing -/

/-- `DAYS_OF_THE_WEEK` from event_manager.py. -/
def DAYS_OF_THE_WEEK : List String :=
  ["monday", "tuesday", "wednesday", "thursday", "friday", "saturday", "sunday"]

/-- `STARTING_TOKENS` from event_manager.py. -/
def STARTING_TOKENS : List String := ["every", "in", "on"]

/-- A row of the `cronevents` table.  `last` is the stored UTC timestamp as
epoch seconds (the code reads it back as a timezone-aware UTC datetime whose
`utcoffset()` is zero, so line 339 of event_manager.py reduces to exactly this
epoch value). -/
structure Row where
  id : String
  query : String
  last : Rat
  module : String
  func : String
  args : String
  kwargs : String
deriving DecidableEq, Repr

/-- `get_word_before_word(word, txt)` from event_manager.py:
`txt.split(word)[0].strip().split(' ')[-1].strip().split('\n')[-1].strip().split('\t')[-1].strip()`. -/
def get_word_before_word (word txt : String) : String :=
  if pyContainsS txt word then
    pyStripS (lastDS (pySplitS (pyStripS (lastDS (pySplitS (pyStripS (lastDS
      (pySplitS (pyStripS (headDS (pySplitS txt word))) " "))) "\n"))) "\t"))
  else ""

/-- The unit-sum accumulated by `parse_time` before the positivity default:
`v` after the four `if 'unit' in s` blocks. -/
def parse_time_v (s : String) : Rat :=
  (if pyContainsS s "day" then 86400 * tryFloatD (get_word_before_word "day" s) 1 else 0)
  + (if pyContainsS s "hour" then 3600 * tryFloatD (get_word_before_word "hour" s) 1 else 0)
  + (if pyContainsS s "minute" then 60 * tryFloatD (get_word_before_word "minute" s) 1 else 0)
  + (if pyContainsS s "second" then tryFloatD (get_word_before_word "second" s) 1 else 0)

/-- `(v if v > 0 else 86400)` for a `minus`-free argument of `parse_time`. -/
def parse_time_base (s : String) : Rat :=
  if 0 < parse_time_v s then parse_time_v s else 86400

/-- `parse_time(s)` from event_manager.py.  The recursive call
`parse_time(s.split('minus')[-1])` receives a string that cannot contain
`'minus'` again (Python `split` pieces never contain the separator), so that
call is exactly `parse_time_base` of the last piece. -/
def parse_time (s : String) : Rat :=
  if pyContainsS s "minus" then
    parse_time_base (headDS (pySplitS s "minus")) - parse_time_base (lastDS (pySplitS s "minus"))
  else parse_time_base s

/-- `parse_time_timedelta(s)` from event_manager.py, as the total seconds of
the returned `timedelta`.  `Except.error ()` models the `ValueError` that
`int(hr)` raises at line 319 when `'pm'` is present and `hr` is not an
integer literal.  When `int(hr)` succeeds with a value `>= 12`, `hr` is left
as a string and the final `force_int(hr)` re-parses it to the same value.
The `>= 3` colon fall-through sets `hr, _min, sec = 0, 0, 0` (integers), and
the pm bump at line 319 still applies to it: `int(0) < 12`, so a `'pm'`
marker turns `hr` into 12 there as well. -/
def parse_time_timedeltaE (s : String) : Except Unit Int :=
  let query := lastDS (pySplitS s "@")
  let lowq := pyLowerS query
  let q := headDS (pySplitS (headDS (pySplitS lowq "am")) "pm")
  let pm := pyContainsS lowq "pm"
  let nc := pyCountS q ":"
  if nc = 0 then
    let hr := tryIntD q 0
    let hr := if pm && decide (hr < 12) then hr + 12 else hr
    Except.ok (hr * 3600)
  else if nc = 1 then
    let parts := (pySplitS q ":").map pyStripS
    let hrS := parts.getD 0 ""
    let mnS := parts.getD 1 ""
    match (if pm then (parseIntPy hrS).map (fun n => if n < 12 then n + 12 else n)
           else some (tryIntD hrS 0)) with
    | none => Except.error ()
    | some hr => Except.ok (hr * 3600 + tryIntD mnS 0 * 60)
  else if nc = 2 then
    let parts := (pySplitS q ":").map pyStripS
    let hrS := parts.getD 0 ""
    let mnS := parts.getD 1 ""
    let scS := parts.getD 2 ""
    match (if pm then (parseIntPy hrS).map (fun n => if n < 12 then n + 12 else n)
           else some (tryIntD hrS 0)) with
    | none => Except.error ()
    | some hr => Except.ok (hr * 3600 + tryIntD mnS 0 * 60 + tryIntD scS 0)
  else
    let hr : Int := 0
    let hr := if pm && decide (hr < 12) then hr + 12 else hr
    Except.ok (hr * 3600)

/-! ## event_manager.py: the due evaluator `ready` -/

/-- UTC epoch day index of a timestamp (`fromtimestamp(t, utc).date()` as a
day count; the proleptic Gregorian date order agrees with this index). -/
def epochDay (t : Rat) : Int := rfloor (t / 86400)

/-- `now_utc.strftime('%A').lower()`: the English weekday name of a UTC
timestamp.  Epoch day 0 (1970-01-01) was a Thursday, index 3 in
`DAYS_OF_THE_WEEK`. -/
def dayName (now : Rat) : String :=
  DAYS_OF_THE_WEEK.getD (((epochDay now + 3) % 7).toNat) ""

/-- `timedelta(hours=now_utc.hour, minutes=now_utc.minute, seconds=now_utc.second)`
in total seconds: the UTC time of day of `now`, with sub-second part dropped
(a datetime's `.second` excludes microseconds). -/
def currentUtcTod (now : Rat) : Int :=
  let tod : Rat := now - 86400 * (epochDay now : Rat)
  let hour : Int := rfloor (tod / 3600)
  let minute : Int := rfloor ((tod - 3600 * (hour : Rat)) / 60)
  let second : Int := rfloor (tod - 3600 * (hour : Rat) - 60 * (minute : Rat))
  hour * 3600 + minute * 60 + second

/-- `'0' + x if len(x) == 1 else x` (the `force_zero` lambda at line 384). -/
def force_zero (s : String) : String := if s.length = 1 then "0" ++ s else s

/-- One field of `datetime.strptime(..., '%H:%M:%S')`: CPython's `%H`/`%M`/`%S`
patterns match one or two digits whose value is bounded (23 for hours, 59 for
minutes; seconds up to 61 at the regex, but the `datetime` constructor then
rejects 60 and 61), and any leftover character fails the whole parse. -/
def parseClockField (maxv : Nat) (s : String) : Option Int :=
  if !s.data.isEmpty && s.data.length ≤ 2 && s.data.all Char.isDigit
      && pyDigitsVal s.data ≤ maxv then
    some (pyDigitsVal s.data : Nat)
  else none

/-- Lines 364-389 of `ready`: extract the clock-of-day target (in seconds
after UTC midnight) from the `@`-suffix of a (lowered) clause.
`Except.error ()` models either the `ValueError` of `int(hr)` at line 376 or
the `ValueError` of `strptime` at line 386.  `time_to_execute` itself is the
UTC midnight of `now`'s date plus this value: `strftime('%Y-%m-%d')` followed
by `strptime` of that date with the parsed clock reproduces the same UTC
calendar date, i.e. epoch `86400 * epochDay now + clock`. -/
def readyAtClockE (query : String) : Except Unit Int :=
  let query1 := lastDS (pySplitS query "@")
  let q := headDS (pySplitS (headDS (pySplitS (pyLowerS query1) "am")) "pm")
  let nc := pyCountS q ":"
  let hms : String × String × String :=
    if nc = 0 then (pyStripS (intToStr (tryIntD q 0)), "0", "0")
    else if nc = 1 then
      let parts := (pySplitS q ":").map pyStripS
      (parts.getD 0 "", parts.getD 1 "", "0")
    else if nc = 2 then
      let parts := (pySplitS q ":").map pyStripS
      (parts.getD 0 "", parts.getD 1 "", parts.getD 2 "")
    else ("0", "0", "0")
  let hr := hms.1
  let mn := hms.2.1
  let sc := hms.2.2
  match (if pyContainsS (pyLowerS query1) "pm" then
           (parseIntPy hr).map (fun n => if n < 12 then intToStr (n + 12) else hr)
         else some hr) with
  | none => Except.error ()
  | some hr =>
    match parseClockField 23 (force_zero hr), parseClockField 59 (force_zero mn),
        parseClockField 59 (force_zero sc) with
    | some h, some m, some s => Except.ok (h * 3600 + m * 60 + s)
    | _, _, _ => Except.error ()

/-- `time_to` at lines 360-362: window seconds of the portion before `@`,
defaulting to `86400 - 30` when the (lowered) clause does not start with a
recognized starting token followed by a space. -/
def window_seconds (query : String) : Rat :=
  if STARTING_TOKENS.any (fun tok => pyStartsWithS query (tok ++ " ")) then
    parse_time (headDS (pySplitS query "@"))
  else 86400 - 30

/-- The body of `ready(row)` for a clause without `'||'`, before the
enclosing `try/except`.  `now` is `time.time()`; `tz` is the host's local
UTC offset in seconds (the naive `datetime.datetime.fromtimestamp(t)` calls
at line 394 use local wall-clock time `t + tz`; a fixed offset models a
host without DST transitions, e.g. UTC).  `Except.error ()` is any caught
exception. -/
def readyNoOrE (row : Row) (now tz : Rat) : Except Unit Bool :=
  if DAYS_OF_THE_WEEK.any (fun d => pyContainsS (pyLowerS row.query) d) then
    if (rfloor ((now - row.last) / 86400)).natAbs < 5 then Except.ok false
    else if pyContainsS (pyLowerS row.query) (dayName now) then
      if pyContainsS (pyLowerS row.query) "@" then
        match parse_time_timedeltaE (pyLowerS row.query) with
        | Except.error e => Except.error e
        | Except.ok t => Except.ok (decide (currentUtcTod now ≥ t))
      else Except.ok true
    else Except.ok false
  else if !pyContainsS (pyLowerS row.query) "@" then
    Except.ok (decide (now - row.last > parse_time row.query))
  else
    match readyAtClockE (pyLowerS row.query) with
    | Except.error e => Except.error e
    | Except.ok c =>
      Except.ok (decide (86400 * (epochDay now : Rat) + (c : Rat) < now) &&
        decide (rfloor ((now + tz - 86400 *
            ((rfloor ((window_seconds (pyLowerS row.query) - 1) / 60 / 60 / 24)) : Rat)) / 86400)
          > rfloor ((row.last + tz) / 86400)))

/-- `ready` on a `'||'`-free clause: the `try/except` wrapper that turns any
evaluation failure into `False`. -/
def readyNoOr (row : Row) (now tz : Rat) : Bool :=
  match readyNoOrE row now tz with
  | Except.ok b => b
  | Except.error _ => false

/-- `ready(row)` from event_manager.py.  A clause containing `'||'` is split
and each stripped piece is evaluated recursively; a split piece can no longer
contain `'||'`, so the recursive call is exactly the `readyNoOr` path (with
its own `try/except`, because each recursive invocation installs one). -/
def ready (row : Row) (now tz : Rat) : Bool :=
  if pyContainsS (pyLowerS row.query) "||" then
    (pySplitS (pyLowerS row.query) "||").any
      (fun q => readyNoOr { row with query := pyStripS q } now tz)
  else readyNoOr row now tz

/-! ## event_manager.py: the post-fire lifecycle step `update` -/

/-- The effect of `update(row)` on the store. -/
inductive DbAction where
  | upsert (row : Row)
  | delete (id : String)
  | skip
deriving DecidableEq, Repr

/-- `update(row)` from event_manager.py, with `now` the fire time written
into `last`. -/
def update (row : Row) (now : Rat) : DbAction :=
  if pyStartsWithS (pyStripS (pyLowerS row.query)) "every" then
    DbAction.upsert { row with last := now }
  else if ["in", "on", "this", "next"].any
      (fun p => pyStartsWithS (pyStripS (pyLowerS row.query)) p) then
    DbAction.delete row.id
  else DbAction.skip

/-! ## event_manager.py: the expression validator -/

/-- The `CronEventSyntaxError` values raised by `query_syntax_checker` and
`query_at_time_syntax_checker`, one constructor per `raise` site, carrying
the fragments interpolated into the message. -/
inductive CronErr where
  | onlyOneAmPm
  | invalidAm
  | invalidPm
  | maxColons
  | nonIntTime (atQ : String)
  | invalidHour (h : Int)
  | invalidMinute (m : Int)
  | invalidSecond (s : Int)
  | mustStartWith
  | onlyOneAt
  | onlyOneDay (day : String)
  | dayWithOthers (removed : String) (query : String)
  | noUnitBeforeMinus (q : String)
  | noNumberBeforeMinus (q : String)
  | noUnitAfterMinus (q : String)
  | noNumberAfterMinus (q : String)
  | expectedNumber (tok : String)
  | expectedUnit (tok : String)
  | expectedUnitEnd
  | errorInQuery (q : String) (e : CronErr)
deriving DecidableEq, Repr

/-- `units` at lines 173-174: the four singular units followed by their
plural forms. -/
def unitsList : List String :=
  ["day", "hour", "minute", "second", "days", "hours", "minutes", "seconds"]

/-- The message text of each `CronEventSyntaxError`, exactly as formatted in
event_manager.py. -/
def renderErr : CronErr → String
  | CronErr.onlyOneAmPm => "Only one am/pm is allowed"
  | CronErr.invalidAm => "Invalid am format near `am`"
  | CronErr.invalidPm => "Invalid pm format near `pm`"
  | CronErr.maxColons => "Invalid time format. Max use of `:` is 2"
  | CronErr.nonIntTime atQ => "Non-int value for time found: `" ++ atQ ++ "`"
  | CronErr.invalidHour h =>
    "Invalid hour value: `" ++ intToStr h ++ "`. Must be 23 < hour < 0"
  | CronErr.invalidMinute m =>
    "Invalid minute value: `" ++ intToStr m ++ "`. Must be 59 < minute < 0"
  | CronErr.invalidSecond s =>
    "Invalid second value: `" ++ intToStr s ++ "`. Must be 59 < second < 0"
  | CronErr.mustStartWith =>
    "Query must start with one: " ++ String.intercalate ", " STARTING_TOKENS
  | CronErr.onlyOneAt => "Only one @ is allowed"
  | CronErr.onlyOneDay day => "Only one " ++ day ++ " is allowed"
  | CronErr.dayWithOthers removed query =>
    "Invalid format. Using day of the week cannot contain other values. (remove: `"
      ++ removed ++ "` from `" ++ query ++ "`"
  | CronErr.noUnitBeforeMinus q => "No unit found in before minus `" ++ q ++ "`"
  | CronErr.noNumberBeforeMinus q => "No number found in before minus `" ++ q ++ "`"
  | CronErr.noUnitAfterMinus q => "No unit found in after minus `" ++ q ++ "`"
  | CronErr.noNumberAfterMinus q => "No number found in after minus `" ++ q ++ "`"
  | CronErr.expectedNumber tok => "Expected number, got `" ++ tok ++ "`"
  | CronErr.expectedUnit tok =>
    "Expected unit, got `" ++ tok ++ "`. Available units "
      ++ String.intercalate ", " unitsList
  | CronErr.expectedUnitEnd =>
    "Expected unit, got end of query. Please add a unit or remove the last number. Units: "
      ++ String.intercalate ", " unitsList
  | CronErr.errorInQuery q e => "Error in query `" ++ q ++ "`: " ++ renderErr e

/-- `at.replace('am', '').replace('pm', '').strip()` (line 105 of
event_manager.py). -/
def atCleaned (atQ : String) : String :=
  pyStripS (pyReplaceAllS (pyReplaceAllS atQ "am" "") "pm" "")

/-- The `hour`/`minute`/`second` strings split out of the cleaned clock
string by its colon count (lines 110-118 of event_manager.py). -/
def atFields (a : String) : String × String × String :=
  if pyCountS a ":" = 2 then
    ((pySplitS a ":").getD 0 "", (pySplitS a ":").getD 1 "", (pySplitS a ":").getD 2 "")
  else if pyCountS a ":" = 1 then
    ((pySplitS a ":").getD 0 "", (pySplitS a ":").getD 1 "", "0")
  else (a, "0", "0")

/-- `query_at_time_syntax_checker(at)` from event_manager.py (lines 93-132).
The three trailing range checks use Python chained comparison
`23 < hour < 0`, i.e. `23 < hour and hour < 0`, transcribed verbatim. -/
def query_at_time_syntax_checker (atQ : String) : Except CronErr Unit :=
  if pyContainsS atQ "am" && pyContainsS atQ "pm" then Except.error CronErr.onlyOneAmPm
  else if pyContainsS atQ "am" && !pyEndsWithS atQ "am" then Except.error CronErr.invalidAm
  else if pyContainsS atQ "pm" && !pyEndsWithS atQ "pm" then Except.error CronErr.invalidPm
  else if pyCountS (atCleaned atQ) ":" > 2 then Except.error CronErr.maxColons
  else
    match parseIntPy (atFields (atCleaned atQ)).1, parseIntPy (atFields (atCleaned atQ)).2.1,
        parseIntPy (atFields (atCleaned atQ)).2.2 with
    | some h0, some m0, some s0 =>
      if 23 < (if pyContainsS atQ "pm" then h0 + 12 else h0)
          ∧ (if pyContainsS atQ "pm" then h0 + 12 else h0) < 0 then
        Except.error (CronErr.invalidHour (if pyContainsS atQ "pm" then h0 + 12 else h0))
      else if 59 < m0 ∧ m0 < 0 then Except.error (CronErr.invalidMinute m0)
      else if 59 < s0 ∧ s0 < 0 then Except.error (CronErr.invalidSecond s0)
      else Except.ok ()
    | _, _, _ => Except.error (CronErr.nonIntTime (atCleaned atQ))

/-- Lines 152-155: strip the first starting token (checked against the
stripped query, removed from the unstripped one; first matching token in
list order, then stop). -/
def removeFirstToken : List String → String → String
  | [], q => q
  | tok :: rest, q =>
    if pyStartsWithS (pyStripS q) (tok ++ " ") then pyReplaceFirstS q (tok ++ " ") ""
    else removeFirstToken rest q

/-- Lines 203-217: the `(integer, unit)` alternation walk over the tokens.
The flag is `on_number` (`true` initially: a number is expected next). -/
def unitsAlternation : Bool → List String → Except CronErr Unit
  | true, [] => Except.ok ()
  | false, [] => Except.error CronErr.expectedUnitEnd
  | true, t :: rest =>
    if is_int t then unitsAlternation false rest else Except.error (CronErr.expectedNumber t)
  | false, t :: rest =>
    if unitsList.contains t then unitsAlternation true rest
    else Except.error (CronErr.expectedUnit t)

/-- Lines 173-217: the duration-body check (units, the optional single
`minus`, and the number/unit alternation) applied to the query body after
starting-token and `@` removal. -/
def unitsCheck (query : String) : Except CronErr Unit :=
  let tokens := (pySplitWsS query).map pyStripS
  if tokens.contains "minus" then
    let i := tokens.indexOf "minus"
    let before := tokens.take i
    let after := tokens.drop (i + 1)
    if !before.any (fun t => unitsList.contains t) then
      Except.error (CronErr.noUnitBeforeMinus query)
    else if !before.any (fun t => is_int t) then
      Except.error (CronErr.noNumberBeforeMinus query)
    else if !after.any (fun t => unitsList.contains t) then
      Except.error (CronErr.noUnitAfterMinus query)
    else if !after.any (fun t => is_int t) then
      Except.error (CronErr.noNumberAfterMinus query)
    else unitsAlternation true (tokens.erase "minus")
  else unitsAlternation true tokens

/-- The body of `query_syntax_checker` for a query without `'||'`
(lines 148-217). -/
def query_syntax_checker_noOr (query0 : String) : Except CronErr Unit :=
  let query1 := pyLowerS query0
  if !STARTING_TOKENS.any (fun tok => pyStartsWithS (pyStripS query1) (tok ++ " ")) then
    Except.error CronErr.mustStartWith
  else
    let query2 := removeFirstToken STARTING_TOKENS query1
    if pyCountS query2 "@" > 1 then Except.error CronErr.onlyOneAt
    else
      let query3 := if pyCountS query2 "@" = 1 then headDS (pySplitS query2 "@") else query2
      match (if pyCountS query2 "@" = 1 then
               query_at_time_syntax_checker (lastDS (pySplitS query2 "@"))
             else Except.ok ()) with
      | Except.error e => Except.error e
      | Except.ok _ =>
        match DAYS_OF_THE_WEEK.find? (fun d => pyContainsS query3 d) with
        | some day =>
          if pyCountS query3 day > 1 then Except.error (CronErr.onlyOneDay day)
          else if pyStripS (pyReplaceAllS query3 day "") ≠ "" then
            Except.error (CronErr.dayWithOthers (pyReplaceAllS query3 day "") query3)
          else Except.ok ()
        | none => unitsCheck query3

/-- The `'||'` branch of `query_syntax_checker` (lines 139-146): validate
each stripped piece, wrapping the first failure in the
`Error in query ...` message built from the unstripped piece. -/
def checkOrParts : List String → Except CronErr Unit
  | [] => Except.ok ()
  | q :: rest =>
    match query_syntax_checker_noOr (pyStripS q) with
    | Except.ok _ => checkOrParts rest
    | Except.error e => Except.error (CronErr.errorInQuery q e)

/-- `query_syntax_checker(query)` from event_manager.py.  A piece of the
`'||'` split contains no `'||'`, so the recursive call on it is exactly the
`query_syntax_checker_noOr` path. -/
def query_syntax_checker (query : String) : Except CronErr Unit :=
  if pyContainsS query "||" then checkOrParts (pySplitS query "||")
  else query_syntax_checker_noOr query

/-! ## event.py: the log batcher -/

/-- A captured output line paired with the `time.time()` at which the worker
dequeued it (line 79 of event.py). -/
abbrev LogItem := String × Rat

/-- The worker state: the buffered lines and `self.last_log`. -/
structure BatchState where
  buf : List LogItem
  lastLog : Rat
deriving DecidableEq, Repr

/-- One iteration of the `logger` loop body for a dequeued line (lines
79-84 of event.py): append, then flush when more than one second has passed
since the last flush or the buffer holds more than 100 lines.  The returned
option is the flushed batch, if any. -/
def loggerStep (st : BatchState) (item : LogItem) : BatchState × Option (List LogItem) :=
  if item.2 - st.lastLog > 1 ∨ (st.buf ++ [item]).length > 100 then
    (⟨[], item.2⟩, some (st.buf ++ [item]))
  else
    (⟨st.buf ++ [item], st.lastLog⟩, none)

/-- The `logger` loop (lines 72-87 of event.py) over a finite trace of
dequeued lines followed by the `None` sentinel, assuming every upload
succeeds: the list of flushed batches in order, including the final flush of
a nonempty leftover buffer performed after the sentinel. -/
def loggerRun (st : BatchState) : List LogItem → List (List LogItem)
  | [] => if st.buf.isEmpty then [] else [st.buf]
  | item :: rest =>
    match loggerStep st item with
    | (st2, some b) => b :: loggerRun st2 rest
    | (st2, none) => loggerRun st2 rest

/-- `EventLogger.upload` (lines 61-67 of event.py) against an environment
`env` of store handles indexed by how many times `get_db()` has been called:
try the current handle; on failure reconnect once (index + 1) and try that
handle.  Returns the number of write attempts made, and the index of the
handle that succeeded or `none` when the retry also failed (in the code that
second failure is an uncaught exception). -/
def uploadAttempt (env : Nat → List LogItem → Bool) (idx : Nat) (batch : List LogItem) :
    Nat × Option Nat :=
  if env idx batch then (1, some idx)
  else if env (idx + 1) batch then (2, some (idx + 1))
  else (2, none)

/-- The `logger` loop with a fallible store: returns the batches that were
written and whether the worker reached normal completion.  When a flush
fails twice the exception propagates out of the thread body: nothing further
is processed and no final flush happens (`false`). -/
def loggerRunE (env : Nat → List LogItem → Bool) (idx : Nat) (st : BatchState) :
    List LogItem → List (List LogItem) × Bool
  | [] =>
    if st.buf.isEmpty then ([], true)
    else match (uploadAttempt env idx st.buf).2 with
      | some _ => ([st.buf], true)
      | none => ([], false)
  | item :: rest =>
    match loggerStep st item with
    | (st2, some b) =>
      match uploadAttempt env idx b with
      | (_, some idx2) =>
        let r := loggerRunE env idx2 st2 rest
        (b :: r.1, r.2)
      | (_, none) => ([], false)
    | (st2, none) => loggerRunE env idx st2 rest

/-! ## Helper lemmas -/

/-- `List.any` is invariant under permutation of the list. -/
theorem perm_any_eq {α : Type} {l₁ l₂ : List α} (h : l₁.Perm l₂) (p : α → Bool) :
    l₁.any p = l₂.any p := by
  apply Bool.eq_iff_iff.mpr
  simp only [List.any_eq_true]
  constructor
  · rintro ⟨x, hx, hp⟩
    exact ⟨x, h.mem_iff.mp hx, hp⟩
  · rintro ⟨x, hx, hp⟩
    exact ⟨x, h.mem_iff.mpr hx, hp⟩

/-- Every line fed to the logger worker is flushed exactly once, in order:
the concatenation of the flushed batches is the initial buffer followed by
the whole trace (the leftover buffer is always flushed after the sentinel). -/
theorem loggerRun_join (st : BatchState) (tr : List LogItem) :
    (loggerRun st tr).flatten = st.buf ++ tr := by
  induction tr generalizing st with
  | nil =>
    by_cases h : st.buf.isEmpty
    · simp [loggerRun, h, List.isEmpty_iff.mp h]
    · simp [loggerRun, h]
  | cons it rest ih =>
    by_cases hc : it.2 - st.lastLog > 1 ∨ (st.buf ++ [it]).length > 100
    · have hs : loggerStep st it = (⟨[], it.2⟩, some (st.buf ++ [it])) := by
        simp only [loggerStep]
        rw [if_pos hc]
      simp [loggerRun, hs, ih]
    · have hs : loggerStep st it = (⟨st.buf ++ [it], st.lastLog⟩, none) := by
        simp only [loggerStep]
        rw [if_neg hc]
      simp [loggerRun, hs, ih]

/-! ## The claims -/

/-- C1: for a duration clause without `'||'`, weekday name or clock suffix,
`ready` is true exactly when `now - lastFired` exceeds `parse_time` of the
stored expression, i.e. the sum of `value * unitSeconds` over the clause's
number/unit pairs, minus the same computation applied to the
`minus`-delimited suffix when present, each side defaulting to 86400 when
its sum is not positive.  In particular `every 2 hours` parses to 7200 and
is due at elapsed 7201 but not 7199 seconds, and `every 1 day minus
12 hours` parses to 43200 and is due at elapsed 12h + 1s but not 12h. -/
theorem c1_duration_no_clock (row : Row) (now tz : Rat)
    (hor : pyContainsS (pyLowerS row.query) "||" = false)
    (hday : (DAYS_OF_THE_WEEK.any fun d => pyContainsS (pyLowerS row.query) d) = false)
    (hat : pyContainsS (pyLowerS row.query) "@" = false) :
    ready row now tz = decide (now - row.last > parse_time row.query)
    ∧ parse_time "every 2 hours" = 7200
    ∧ ready ⟨"i", "every 2 hours", 0, "m", "f", "", ""⟩ 7201 0 = true
    ∧ ready ⟨"i", "every 2 hours", 0, "m", "f", "", ""⟩ 7199 0 = false
    ∧ parse_time "every 1 day minus 12 hours" = 43200
    ∧ ready ⟨"i", "every 1 day minus 12 hours", 0, "m", "f", "", ""⟩ 43200 0 = false
    ∧ ready ⟨"i", "every 1 day minus 12 hours", 0, "m", "f", "", ""⟩ 43201 0 = true := by
  refine ⟨?_, by decide, by decide, by decide, by decide, by decide, by decide⟩
  simp [ready, readyNoOr, readyNoOrE, hor, hday, hat]

/-- Witness for C1 at the clause `every 2 hours`, `lastFired = 0`,
`now = 7201`. -/
theorem c1_duration_no_clock_witness :
    ready ⟨"i", "every 2 hours", 0, "m", "f", "", ""⟩ 7201 0 =
      decide ((7201 : Rat) - 0 > parse_time "every 2 hours") :=
  (c1_duration_no_clock ⟨"i", "every 2 hours", 0, "m", "f", "", ""⟩ 7201 0
    (by decide) (by decide) (by decide)).1

/-- C2: for an expression containing `'||'`, `ready` is true exactly when
some `'||'`-separated piece (stripped) is due on its own, and the result is
invariant under any permutation of the pieces; concretely, one due plus one
not-due sub-clause yields true in both orders. -/
theorem c2_or_composition (row : Row) (now tz : Rat)
    (hor : pyContainsS (pyLowerS row.query) "||" = true) :
    ready row now tz =
      (pySplitS (pyLowerS row.query) "||").any
        (fun q => readyNoOr { row with query := pyStripS q } now tz)
    ∧ (∀ l : List String, (pySplitS (pyLowerS row.query) "||").Perm l →
        l.any (fun q => readyNoOr { row with query := pyStripS q } now tz) =
          ready row now tz)
    ∧ ready ⟨"i", "every 1 second || every 100 days", 0, "m", "f", "", ""⟩ 5 0 = true
    ∧ ready ⟨"i", "every 100 days || every 1 second", 0, "m", "f", "", ""⟩ 5 0 = true
    ∧ ready ⟨"i", "every 100 days || every 200 days", 0, "m", "f", "", ""⟩ 5 0 = false := by
  have h1 : ready row now tz =
      (pySplitS (pyLowerS row.query) "||").any
        (fun q => readyNoOr { row with query := pyStripS q } now tz) := by
    simp [ready, hor]
  refine ⟨h1, ?_, by decide, by decide, by decide⟩
  intro l hp
  rw [h1]
  exact perm_any_eq hp.symm _

/-- Witness for C2 at `every 1 second || every 100 days`, `lastFired = 0`,
`now = 5`. -/
theorem c2_or_composition_witness :
    ready ⟨"i", "every 1 second || every 100 days", 0, "m", "f", "", ""⟩ 5 0 =
      (pySplitS (pyLowerS "every 1 second || every 100 days") "||").any
        (fun q => readyNoOr ⟨"i", pyStripS q, 0, "m", "f", "", ""⟩ 5 0) :=
  (c2_or_composition ⟨"i", "every 1 second || every 100 days", 0, "m", "f", "", ""⟩ 5 0
    (by decide)).1

/-- C5: after a successful fire, `update` re-upserts a row whose expression
begins (after lowercasing and stripping) with the repeating token `every`,
changing only `last`, which is set to the fire time; a row whose expression
begins with a non-repeating starting token (`in` or `on`) is deleted instead,
and no `last` update ever happens for it.  Every expression accepted by the
validator starts with one of `every`, `in`, `on`, so these two cases cover
every row that can fire. -/
theorem c5_lifecycle (row : Row) (now : Rat) :
    (pyStartsWithS (pyStripS (pyLowerS row.query)) "every" = true →
      update row now = DbAction.upsert { row with last := now })
    ∧ (pyStartsWithS (pyStripS (pyLowerS row.query)) "every" = false →
       (pyStartsWithS (pyStripS (pyLowerS row.query)) "in" = true ∨
        pyStartsWithS (pyStripS (pyLowerS row.query)) "on" = true) →
      update row now = DbAction.delete row.id) := by
  constructor
  · intro h
    simp [update, h]
  · intro h hio
    have : (["in", "on", "this", "next"].any
        (fun p => pyStartsWithS (pyStripS (pyLowerS row.query)) p)) = true := by
      rcases hio with h2 | h2 <;> simp [h2]
    simp [update, h, this]

/-- Witness for C5: a recurring row is re-upserted with `last := 99`, a
one-shot row is deleted. -/
theorem c5_lifecycle_witness :
    update ⟨"i", "every 1 day", 0, "m", "f", "", ""⟩ 99 =
      DbAction.upsert ⟨"i", "every 1 day", 99, "m", "f", "", ""⟩
    ∧ update ⟨"j", "in 10 minutes", 0, "m", "f", "", ""⟩ 99 = DbAction.delete "j" :=
  ⟨(c5_lifecycle ⟨"i", "every 1 day", 0, "m", "f", "", ""⟩ 99).1 (by decide),
   (c5_lifecycle ⟨"j", "in 10 minutes", 0, "m", "f", "", ""⟩ 99).2 (by decide)
     (Or.inl (by decide))⟩

/-- C6: `ready` never propagates a failure: it is a total boolean function,
and whenever the evaluation body raises (any parse or arithmetic error,
modelled by `readyNoOrE` returning `Except.error`), the enclosing
`try/except` yields `false` (not due). -/
theorem c6_fail_closed (row : Row) (now tz : Rat) (e : Unit)
    (hor : pyContainsS (pyLowerS row.query) "||" = false)
    (herr : readyNoOrE row now tz = Except.error e) :
    ready row now tz = false := by
  simp [ready, readyNoOr, hor, herr]

/-- Witness for C6: the clause `every 1 day @ x:30 pm` makes the body raise
(`int('x')` fails while handling the `pm` marker) and `ready` returns
`false`. -/
theorem c6_fail_closed_witness :
    readyNoOrE ⟨"i", "every 1 day @ x:30 pm", 0, "m", "f", "", ""⟩ 0 0 = Except.error ()
    ∧ ready ⟨"i", "every 1 day @ x:30 pm", 0, "m", "f", "", ""⟩ 0 0 = false :=
  ⟨by decide,
   c6_fail_closed ⟨"i", "every 1 day @ x:30 pm", 0, "m", "f", "", ""⟩ 0 0 ()
     (by decide) (by decide)⟩

/-- C3 counterexample: the claim states that the elapsed-window condition of
a clock-suffix clause compares **UTC** calendar dates, but lines 392-395 of
event_manager.py use naive `datetime.fromtimestamp`, i.e. host-local dates.
On a host at UTC+12 (`tz = 43200`), for `every 1 day @ 0` with
`lastFired = 0` and `now = 50000` (both inside UTC day 0), `ready` is true
although the claimed UTC-date condition (`days = 0`, so UTC date of `now`
strictly later than UTC date of `lastFired`) is false. -/
theorem c3_clock_cex :
    ready ⟨"i", "every 1 day @ 0", 0, "m", "f", "", ""⟩ 50000 43200 = true
    ∧ readyAtClockE (pyLowerS "every 1 day @ 0") = Except.ok 0
    ∧ ¬ ((86400 * (epochDay 50000 : Rat) + (0 : Rat) < 50000) ∧
        rfloor (((50000 : Rat) - 86400 *
            ((rfloor ((window_seconds (pyLowerS "every 1 day @ 0") - 1) / 60 / 60 / 24)) : Rat))
          / 86400) > rfloor ((0 : Rat) / 86400)) := by
  refine ⟨by decide, by decide, ?_⟩
  intro h
  exact absurd h.2 (by decide)

/-- C3 (amended): for a duration clause with a clock suffix (no `'||'`, no
weekday name) whose clock portion parses to `c` seconds after midnight,
`ready` is true iff the current UTC wall-clock has strictly passed the
clock-of-day target on today's UTC date, AND the **host-local** calendar
date of `now - days` (with `days = floor((windowSeconds - 1)/86400)` and
`windowSeconds` from the portion before `@`, defaulting to `86400 - 30`
when the clause does not start with a recognized starting token) is
strictly later than the host-local calendar date of `lastFired`.  The
original claim holds as stated exactly when the host timezone is UTC
(`tz = 0`). -/
theorem c3_clock_amended (row : Row) (now tz : Rat) (c : Int)
    (hor : pyContainsS (pyLowerS row.query) "||" = false)
    (hday : (DAYS_OF_THE_WEEK.any fun d => pyContainsS (pyLowerS row.query) d) = false)
    (hat : pyContainsS (pyLowerS row.query) "@" = true)
    (hc : readyAtClockE (pyLowerS row.query) = Except.ok c) :
    ready row now tz =
      (decide (86400 * (epochDay now : Rat) + (c : Rat) < now) &&
       decide (rfloor ((now + tz - 86400 *
           ((rfloor ((window_seconds (pyLowerS row.query) - 1) / 60 / 60 / 24)) : Rat)) / 86400)
         > rfloor ((row.last + tz) / 86400))) := by
  unfold ready readyNoOr readyNoOrE
  rw [hor, if_neg Bool.false_ne_true, hday, if_neg Bool.false_ne_true, hat,
    Bool.not_true, if_neg Bool.false_ne_true, hc]

/-- Witness for the amended C3: `every 1 day @ 08:00:00`, `lastFired = 0`,
`now = 116400` (day 1, 08:20 UTC), host at UTC. -/
theorem c3_clock_amended_witness :
    ready ⟨"i", "every 1 day @ 08:00:00", 0, "m", "f", "", ""⟩ 116400 0 =
      (decide (86400 * (epochDay 116400 : Rat) + (28800 : Rat) < 116400) &&
       decide (rfloor ((116400 + 0 - 86400 *
           ((rfloor ((window_seconds (pyLowerS "every 1 day @ 08:00:00") - 1) / 60 / 60 / 24)) : Rat)) / 86400)
         > rfloor (((0 : Rat) + 0) / 86400))) :=
  c3_clock_amended ⟨"i", "every 1 day @ 08:00:00", 0, "m", "f", "", ""⟩ 116400 0 28800
    (by decide) (by decide) (by decide) (by decide)

/-- C4 counterexample: the claim requires at least 5 days **elapsed since**
`lastFired`, but line 344 of event_manager.py takes the absolute value of
the day difference, so a `lastFired` lying 6 days in the *future* also
passes.  At `now = 345600` (Monday 1970-01-05) with `lastFired = 864000`
(6 days later), `ready "on monday"` is true although zero time has
elapsed. -/
theorem c4_weekday_cex :
    ready ⟨"i", "on monday", 864000, "m", "f", "", ""⟩ 345600 0 = true
    ∧ ¬ ((5 : Rat) * 86400 ≤ (345600 : Rat) - 864000) := by
  exact ⟨by decide, by decide⟩

/-- C4 (amended): for a clause containing a weekday name (no `'||'`),
`ready` is true iff (a) the **absolute value** of the floored day-difference
`floor((now - lastFired)/86400)` is at least 5 (at least 5 days elapsed, or
`lastFired` at least ~5 days in the future), AND (b) the current UTC
weekday name occurs in the clause, AND (c) when a clock suffix is present,
the current UTC time-of-day is `≥` the parsed clock value (with a parse
failure giving not-due); with no clock suffix, (a) and (b) alone suffice.
The last two conjuncts pin the clock parse on the `>= 3` colon fall-through:
its `hr = 0` still receives the `pm` bump of line 319, so
`on monday @ 1:2:3:4 pm` parses to 12:00:00 and is not due at UTC
midnight of a matching Monday. -/
theorem c4_weekday_amended (row : Row) (now tz : Rat)
    (hor : pyContainsS (pyLowerS row.query) "||" = false)
    (hday : (DAYS_OF_THE_WEEK.any fun d => pyContainsS (pyLowerS row.query) d) = true) :
    (ready row now tz =
      (decide (5 ≤ (rfloor ((now - row.last) / 86400)).natAbs) &&
       pyContainsS (pyLowerS row.query) (dayName now) &&
       (if pyContainsS (pyLowerS row.query) "@" then
          match parse_time_timedeltaE (pyLowerS row.query) with
          | Except.ok t => decide (currentUtcTod now ≥ t)
          | Except.error _ => false
        else true)))
    ∧ parse_time_timedeltaE (pyLowerS "on monday @ 1:2:3:4 pm") = Except.ok 43200
    ∧ ready ⟨"i", "on monday @ 1:2:3:4 pm", 0, "m", "f", "", ""⟩ 950400 0 = false := by
  refine ⟨?_, by decide, by decide⟩
  unfold ready readyNoOr readyNoOrE
  rw [hor, if_neg Bool.false_ne_true, hday, if_pos rfl]
  by_cases h5 : (rfloor ((now - row.last) / 86400)).natAbs < 5
  · rw [if_pos h5, decide_eq_false (not_le.mpr h5), Bool.false_and, Bool.false_and]
  · rw [if_neg h5, decide_eq_true (not_lt.mp h5), Bool.true_and]
    cases hcd : pyContainsS (pyLowerS row.query) (dayName now) with
    | false => rw [if_neg Bool.false_ne_true, Bool.false_and]
    | true =>
      rw [if_pos rfl, Bool.true_and]
      cases hat2 : pyContainsS (pyLowerS row.query) "@" with
      | false => rw [if_neg Bool.false_ne_true, if_neg Bool.false_ne_true]
      | true =>
        rw [if_pos rfl, if_pos rfl]
        cases hp : parse_time_timedeltaE (pyLowerS row.query) with
        | ok t => rfl
        | error e => rfl

/-- Witness for the amended C4: `on monday`, `lastFired = 0`,
`now = 950400` (Monday 1970-01-12, 11 days later). -/
theorem c4_weekday_amended_witness :
    ready ⟨"i", "on monday", 0, "m", "f", "", ""⟩ 950400 0 =
      (decide (5 ≤ (rfloor (((950400 : Rat) - 0) / 86400)).natAbs) &&
       pyContainsS (pyLowerS "on monday") (dayName 950400) &&
       (if pyContainsS (pyLowerS "on monday") "@" then
          match parse_time_timedeltaE (pyLowerS "on monday") with
          | Except.ok t => decide (currentUtcTod 950400 ≥ t)
          | Except.error _ => false
        else true)) :=
  (c4_weekday_amended ⟨"i", "on monday", 0, "m", "f", "", ""⟩ 950400 0
    (by decide) (by decide)).1

/-- C7: validation is total — it either accepts (returns without raising) or
raises a `CronEventSyntaxError` value; `every banana hours` is rejected with
the `Expected number` error carrying the unexpected token `banana`, whose
rendered message cites `banana`; well-formed expressions are accepted. -/
theorem c7_validator :
    (∀ q : String, query_syntax_checker q = Except.ok ()
        ∨ ∃ e, query_syntax_checker q = Except.error e)
    ∧ query_syntax_checker "every banana hours" =
        Except.error (CronErr.expectedNumber "banana")
    ∧ pyContainsS (renderErr (CronErr.expectedNumber "banana")) "banana" = true
    ∧ query_syntax_checker "every 2 hours" = Except.ok ()
    ∧ query_syntax_checker "on monday @ 14:30:00" = Except.ok ()
    ∧ query_syntax_checker "every 1 day || on friday" = Except.ok () := by
  refine ⟨?_, by decide, by decide, by decide, by decide, by decide⟩
  intro q
  cases hq : query_syntax_checker q with
  | ok u =>
    left
    cases u
    rfl
  | error e =>
    right
    exact ⟨e, rfl⟩

/-- C8: the hour/minute/second range checks of the clock-suffix validator
are Python chained comparisons `23 < hour < 0` (etc.), which can never hold,
so for every input whose fields parse as integers — indeed for every input
whatsoever — the validator never raises the `Invalid hour value`,
`Invalid minute value` or `Invalid second value` errors. -/
theorem c8_dead_range_checks (atQ : String) (v : Int) :
    query_at_time_syntax_checker atQ ≠ Except.error (CronErr.invalidHour v)
    ∧ query_at_time_syntax_checker atQ ≠ Except.error (CronErr.invalidMinute v)
    ∧ query_at_time_syntax_checker atQ ≠ Except.error (CronErr.invalidSecond v) := by
  refine ⟨?_, ?_, ?_⟩ <;>
  · intro h
    unfold query_at_time_syntax_checker at h
    repeat' split at h
    all_goals (try exact Except.noConfusion h)
    all_goals (injection h with h2; try exact CronErr.noConfusion h2)
    all_goals (injection h2; omega)

/-- C9: the log batcher flushes, at each dequeued line, exactly when more
than 1 second has passed since the last flush or the buffer (after
appending) exceeds 100 lines; every line is flushed exactly once and in
order, with the leftover buffer always flushed after the sentinel;
concretely, 102 immediate lines flush as a 101-line batch plus a final
1-line batch, and a line arriving after a 1.5-second idle gap is flushed
immediately on its own. -/
theorem c9_log_batcher :
    (∀ (st : BatchState) (tr : List LogItem), (loggerRun st tr).flatten = st.buf ++ tr)
    ∧ (∀ (st : BatchState) (item : LogItem), ((loggerStep st item).2).isSome =
        (decide (item.2 - st.lastLog > 1) || decide (st.buf.length + 1 > 100)))
    ∧ loggerRun ⟨[], 0⟩ (List.replicate 102 ("line", 0)) =
        [List.replicate 101 ("line", 0), [("line", 0)]]
    ∧ loggerRun ⟨[], 0⟩ [("line", 3/2), ("line2", 3/2)] =
        [[("line", 3/2)], [("line2", 3/2)]] := by
  refine ⟨loggerRun_join, ?_, by decide, by decide⟩
  intro st item
  by_cases hc : item.2 - st.lastLog > 1 ∨ (st.buf ++ [item]).length > 100
  · rw [loggerStep, if_pos hc]
    have : (decide (item.2 - st.lastLog > 1) || decide (st.buf.length + 1 > 100)) = true := by
      rcases hc with h | h
      · simp [h]
      · simp only [List.length_append, List.length_singleton] at h
        simp [h]
    simp [this]
  · rw [loggerStep, if_neg hc]
    push_neg at hc
    simp only [List.length_append, List.length_singleton] at hc
    simp [not_lt.mpr hc.1, not_lt.mpr hc.2]

/-- C10 counterexample: the claim states that when the reconnect-retry also
fails the batch is dropped and batching continues (never fatal to the
batcher), but in event.py the second `upload_logs` call at line 67 is not
guarded: its exception propagates and terminates the worker loop.  With a
store that always fails, a trace whose first line triggers a flush aborts
the run — the second line is never processed and no final flush happens. -/
theorem c10_retry_cex :
    ¬ (loggerRunE (fun _ _ => false) 0 ⟨[], 0⟩ [("a", 2), ("b", 5/2)]).2 = true := by
  decide

/-- C10 (amended): a failed flush reconnects the store handle once and
retries the same batch exactly once — never more than two write attempts —
and when the retry also fails the failure propagates out of the batching
loop, terminating it: nothing is recorded for that run and subsequent lines
are not flushed. -/
theorem c10_retry_amended :
    (∀ (env : Nat → List LogItem → Bool) (idx : Nat) (batch : List LogItem),
      (uploadAttempt env idx batch).1 ≤ 2)
    ∧ (∀ (env : Nat → List LogItem → Bool) (idx : Nat) (st st2 : BatchState)
         (item : LogItem) (rest : List LogItem) (b : List LogItem),
        loggerStep st item = (st2, some b) →
        (uploadAttempt env idx b).2 = none →
        loggerRunE env idx st (item :: rest) = ([], false)) := by
  constructor
  · intro env idx batch
    unfold uploadAttempt
    split_ifs <;> simp
  · intro env idx st st2 item rest b h1 h2
    rcases hu : uploadAttempt env idx b with ⟨n, o⟩
    rw [hu] at h2
    simp only at h2
    subst h2
    simp [loggerRunE, h1, hu]

/-- Witness for the amended C10: with an always-failing store, the run
aborts on the first flush. -/
theorem c10_retry_amended_witness :
    loggerRunE (fun _ _ => false) 0 ⟨[], 0⟩ [("a", 2), ("b", 5/2)] = ([], false) :=
  c10_retry_amended.2 (fun _ _ => false) 0 ⟨[], 0⟩ ⟨[], 2⟩ ("a", 2) [("b", 5/2)]
    [("a", 2)] (by decide) (by decide)
